import Mathlib

/-!
# Verification of the MCA dashboard core (reconciliation, risk scoring, cash-flow forecast)

Shallow embedding of the computational core of the repository:

* `src/utils/cash_flow_forecast.py` — historical rate estimation and the
  period-by-period cash projection loop (`create_cash_flow_forecast`);
* `src/pages/qbo_dashboard.py` — per-customer risk scoring
  (`payment_behavior`: payment ratio, outstanding balance, risk score,
  `pd.cut` risk categories) and the cash-impact classification;
* `src/scripts/combine_hubspot_mca.py` — the loan-id join of HubSpot deals
  against MCA deals (`combine_deals`).

Numeric columns are modelled over `ℚ` (exact real arithmetic, the idealisation
of the float computations); dates are day numbers (`ℤ`), nullable columns are
`Option`.
-/

namespace Spec2Proof

/-! ## Cash-flow forecast: the projection loop

From `create_cash_flow_forecast`, lines 396–431.  The scenario parameters
(`deployment_rate`, `inflow_rate`, `opex_rate`, `starting_cash`,
`min_cash_threshold`) arrive already resolved from the UI widgets. -/

structure ForecastParams where
  startingCash : ℚ
  minCashThreshold : ℚ
  deploymentRate : ℚ
  inflowRate : ℚ
  opexRate : ℚ
deriving Repr, DecidableEq

/-- One row of the recorded forecast table (`forecast_data` entries, without
the `Date` column, which carries no arithmetic content). -/
structure ForecastRow where
  cashPosition : ℚ
  deployment : ℚ
  inflows : ℚ
  opex : ℚ
  netFlow : ℚ
deriving Repr, DecidableEq, Inhabited

/-- One iteration of the projection loop (lines 410–431): tentative
deployment is the scenario rate; if the period would push cash below the
minimum threshold, deployment is clamped to
`max 0 (current_cash - min_cash_threshold - opex)`; then
`net_flow = inflows - deployment - opex` and the cash position advances. -/
def forecastStep (p : ForecastParams) (currentCash : ℚ) : ForecastRow :=
  let dep0 := p.deploymentRate
  let dep := if currentCash - dep0 - p.opexRate < p.minCashThreshold then
      max 0 (currentCash - p.minCashThreshold - p.opexRate)
    else dep0
  let net := p.inflowRate - dep - p.opexRate
  { cashPosition := currentCash + net
    deployment := dep
    inflows := p.inflowRate
    opex := p.opexRate
    netFlow := net }

/-- The starting row appended before the loop (lines 400–407). -/
def startRow (p : ForecastParams) : ForecastRow :=
  { cashPosition := p.startingCash, deployment := 0, inflows := 0, opex := 0, netFlow := 0 }

/-- The loop body iterated over the remaining horizon, threading
`current_cash`. -/
def forecastRowsAux (p : ForecastParams) (currentCash : ℚ) : Nat → List ForecastRow
  | 0 => []
  | n + 1 =>
    let r := forecastStep p currentCash
    r :: forecastRowsAux p r.cashPosition n

/-- The full recorded table `forecast_data`: the starting row followed by
`horizon` projected periods. -/
def forecastData (p : ForecastParams) (horizon : Nat) : List ForecastRow :=
  startRow p :: forecastRowsAux p p.startingCash horizon

/-- Row `i` of the recorded table (out-of-range reads return the default row;
all theorems restrict to in-range indices). -/
def rowAt (p : ForecastParams) (horizon i : Nat) : ForecastRow :=
  (forecastData p horizon).getD i default

/-- The cash position after `i` loop iterations (the value of the Python
variable `current_cash` entering iteration `i`). -/
def cashAt (p : ForecastParams) : Nat → ℚ
  | 0 => p.startingCash
  | i + 1 => (forecastStep p (cashAt p i)).cashPosition

/-- Headline metrics outside the loop: `net_flow_per_period` (line 312). -/
def netFlowPerPeriod (p : ForecastParams) : ℚ :=
  p.inflowRate - p.deploymentRate - p.opexRate

/-- `usable_cash` (lines 330, 343). -/
def usableCash (p : ForecastParams) : ℚ :=
  p.startingCash - p.minCashThreshold

/-- The runway metric (lines 342–352): computed only when the steady-state
net flow is negative and usable cash is positive; otherwise the UI shows
"Below minimum" or "Positive" instead of a number. -/
def runwayPeriods (p : ForecastParams) : Option ℚ :=
  if netFlowPerPeriod p < 0 then
    if usableCash p > 0 then some (usableCash p / |netFlowPerPeriod p|) else none
  else none

/-- The headline ending-cash metric (line 371):
`starting_cash + net_flow_per_period * forecast_horizon`, computed without
the loop and hence without the deployment throttle. -/
def endingCash (p : ForecastParams) (horizon : Nat) : ℚ :=
  p.startingCash + netFlowPerPeriod p * horizon

/-- What the metric widget displays (line 374): `max(0, ending_cash)`. -/
def displayedEndingCash (p : ForecastParams) (horizon : Nat) : ℚ :=
  max 0 (endingCash p horizon)

/-! ### Structural lemmas about the loop -/

lemma forecastRowsAux_succ (p : ForecastParams) (c : ℚ) (n : Nat) :
    forecastRowsAux p c (n + 1) =
      forecastStep p c :: forecastRowsAux p (forecastStep p c).cashPosition n := rfl

lemma forecastRowsAux_getD (p : ForecastParams) :
    ∀ i n k, i < n →
      (forecastRowsAux p (cashAt p k) n).getD i default = forecastStep p (cashAt p (k + i))
  | 0, n + 1, k, _ => by simp [forecastRowsAux_succ]
  | i + 1, n + 1, k, h => by
    rw [forecastRowsAux_succ]
    have hc : (forecastStep p (cashAt p k)).cashPosition = cashAt p (k + 1) := rfl
    have ih := forecastRowsAux_getD p i n (k + 1) (Nat.lt_of_succ_lt_succ h)
    simp only [List.getD_cons_succ, hc, ih]
    congr 2
    omega

lemma rowAt_zero (p : ForecastParams) (n : Nat) : rowAt p n 0 = startRow p := rfl

lemma rowAt_succ (p : ForecastParams) {n i : Nat} (h : i < n) :
    rowAt p n (i + 1) = forecastStep p (cashAt p i) := by
  have h0 : cashAt p 0 = p.startingCash := rfl
  have := forecastRowsAux_getD p i n 0 h
  simpa [rowAt, forecastData, h0] using this

lemma rowAt_cashPosition (p : ForecastParams) {n i : Nat} (h : i ≤ n) :
    (rowAt p n i).cashPosition = cashAt p i := by
  cases i with
  | zero => rfl
  | succ j =>
    rw [rowAt_succ p (Nat.lt_of_succ_le h)]
    rfl

lemma forecastStep_netFlow (p : ForecastParams) (c : ℚ) :
    (forecastStep p c).netFlow =
      (forecastStep p c).inflows - (forecastStep p c).deployment - (forecastStep p c).opex := rfl

lemma forecastStep_cashPosition (p : ForecastParams) (c : ℚ) :
    (forecastStep p c).cashPosition = c + (forecastStep p c).netFlow := rfl

/-- One loop iteration preserves the cash floor, provided the period inflow
covers the period opex (deployment is the only throttled lever, so opex in
excess of inflows can always breach the floor). -/
lemma forecastStep_floor (p : ForecastParams) (c : ℚ)
    (hop : 0 ≤ p.opexRate) (hcov : p.opexRate ≤ p.inflowRate)
    (hc : p.minCashThreshold ≤ c) :
    p.minCashThreshold ≤ (forecastStep p c).cashPosition := by
  have hin : 0 ≤ p.inflowRate := hop.trans hcov
  unfold forecastStep
  dsimp only
  split_ifs with h
  · rcases le_or_lt 0 (c - p.minCashThreshold - p.opexRate) with h2 | h2
    · rw [max_eq_right h2]; linarith
    · rw [max_eq_left h2.le]; linarith
  · push_neg at h
    linarith

lemma cashAt_floor (p : ForecastParams)
    (hop : 0 ≤ p.opexRate) (hcov : p.opexRate ≤ p.inflowRate)
    (hstart : p.minCashThreshold ≤ p.startingCash) :
    ∀ i, p.minCashThreshold ≤ cashAt p i
  | 0 => hstart
  | i + 1 => forecastStep_floor p (cashAt p i) hop hcov (cashAt_floor p hop hcov hstart i)

lemma forecastStep_deployment_nonneg (p : ForecastParams) (c : ℚ)
    (hdep : 0 ≤ p.deploymentRate) : 0 ≤ (forecastStep p c).deployment := by
  unfold forecastStep
  dsimp only
  split_ifs with h
  · exact le_max_left 0 _
  · exact hdep

/-- The throttle never binds during the run: entering every period, cash less
the unclamped deployment and opex still meets the threshold. -/
def throttleFree (p : ForecastParams) (n : Nat) : Prop :=
  ∀ i < n, p.minCashThreshold ≤ cashAt p i - p.deploymentRate - p.opexRate

instance (p : ForecastParams) (n : Nat) : Decidable (throttleFree p n) :=
  Nat.decidableBallLT n fun _ _ => _

lemma cashAt_of_throttleFree (p : ForecastParams) (n : Nat) (h : throttleFree p n) :
    cashAt p n = p.startingCash + (n : ℚ) * netFlowPerPeriod p := by
  induction n with
  | zero => simp [cashAt]
  | succ m ih =>
    have hm : throttleFree p m := fun i hi => h i (Nat.lt_succ_of_lt hi)
    have hstep := h m (Nat.lt_succ_self m)
    have hcash : (forecastStep p (cashAt p m)).cashPosition =
        cashAt p m + netFlowPerPeriod p := by
      unfold forecastStep netFlowPerPeriod
      dsimp only
      rw [if_neg (not_lt.mpr hstep)]
    rw [cashAt, hcash, ih hm]
    push_cast
    ring

/-- Parameter set of the worked scenario (§8 property 6 of the spec). -/
def pScenario : ForecastParams :=
  { startingCash := 500000, minCashThreshold := 100000
    deploymentRate := 10000, inflowRate := 12000, opexRate := 2500 }

/-- Parameter set where the throttle binds immediately: cash starts at the
floor and any deployment would breach it. -/
def pBind : ForecastParams :=
  { startingCash := 100000, minCashThreshold := 100000
    deploymentRate := 1000, inflowRate := 0, opexRate := 0 }

/-- Parameter set violating the claimed unconditional cash floor: cash starts
exactly at the floor, no inflows, positive opex; all rates non-negative. -/
def pOpex : ForecastParams :=
  { startingCash := 100000, minCashThreshold := 100000
    deploymentRate := 0, inflowRate := 0, opexRate := 2500 }

/-- C1 (counterexample): with all rates non-negative and
`starting_cash ≥ min_cash_threshold`, the recorded cash position can still
drop below the threshold — the throttle only clamps deployment, so opex with
no inflows breaches the floor: starting exactly at the floor with weekly opex
2500 and no inflows, period 1 records cash 97500 < 100000, a violation of
2500, far beyond any float epsilon. -/
theorem c1_cash_floor_counterexample :
    (0 : ℚ) ≤ pOpex.deploymentRate ∧ (0 : ℚ) ≤ pOpex.inflowRate ∧
    (0 : ℚ) ≤ pOpex.opexRate ∧ pOpex.minCashThreshold ≤ pOpex.startingCash ∧
    (rowAt pOpex 1 1).cashPosition < pOpex.minCashThreshold ∧
    (rowAt pOpex 1 1).cashPosition = 97500 := by
  norm_num [rowAt, forecastData, forecastRowsAux, forecastStep, startRow, pOpex]

/-- C1 (amended): in the projection loop, if `starting_cash ≥
min_cash_threshold` and additionally the period inflow rate covers the period
opex rate (`opex_rate ≤ inflow_rate`), then every recorded cash position
stays at or above `min_cash_threshold`, and recorded deployment is never
negative (the latter for any non-negative deployment rate). -/
theorem c1_cash_floor (p : ForecastParams) (n i : Nat)
    (hdep : 0 ≤ p.deploymentRate) (_hin : 0 ≤ p.inflowRate)
    (hop : 0 ≤ p.opexRate) (hcov : p.opexRate ≤ p.inflowRate)
    (hstart : p.minCashThreshold ≤ p.startingCash) (hi : i ≤ n) :
    p.minCashThreshold ≤ (rowAt p n i).cashPosition ∧
    0 ≤ (rowAt p n i).deployment := by
  refine ⟨?_, ?_⟩
  · rw [rowAt_cashPosition p hi]
    exact cashAt_floor p hop hcov hstart i
  · cases i with
    | zero => exact le_refl 0
    | succ j =>
      rw [rowAt_succ p (Nat.lt_of_succ_le hi)]
      exact forecastStep_deployment_nonneg p _ hdep

/-- Witness for C1 (amended) at the worked scenario, horizon 2, period 1. -/
theorem c1_cash_floor_witness :
    ((0 : ℚ) ≤ pScenario.deploymentRate ∧ (0 : ℚ) ≤ pScenario.inflowRate ∧
     (0 : ℚ) ≤ pScenario.opexRate ∧ pScenario.opexRate ≤ pScenario.inflowRate ∧
     pScenario.minCashThreshold ≤ pScenario.startingCash ∧ 1 ≤ 2) ∧
    (pScenario.minCashThreshold ≤ (rowAt pScenario 2 1).cashPosition ∧
     0 ≤ (rowAt pScenario 2 1).deployment) :=
  ⟨⟨by norm_num [pScenario], by norm_num [pScenario], by norm_num [pScenario],
    by norm_num [pScenario], by norm_num [pScenario], by norm_num⟩,
   c1_cash_floor pScenario 2 1 (by norm_num [pScenario]) (by norm_num [pScenario])
     (by norm_num [pScenario]) (by norm_num [pScenario]) (by norm_num [pScenario])
     (by norm_num)⟩

/-- C2: for every loop period (any parameters, any horizon), the recorded net
flow equals inflows minus deployment minus opex for that period, and the
recorded cash position equals the previous recorded cash position plus the
net flow, exactly. -/
theorem c2_net_flow_identity (p : ForecastParams) (n i : Nat) (h : i < n) :
    (rowAt p n (i + 1)).netFlow =
      (rowAt p n (i + 1)).inflows - (rowAt p n (i + 1)).deployment -
        (rowAt p n (i + 1)).opex ∧
    (rowAt p n (i + 1)).cashPosition =
      (rowAt p n i).cashPosition + (rowAt p n (i + 1)).netFlow := by
  rw [rowAt_succ p h, rowAt_cashPosition p h.le]
  exact ⟨forecastStep_netFlow p _, forecastStep_cashPosition p _⟩

/-- Witness for C2 at the worked scenario, horizon 2, first loop period. -/
theorem c2_net_flow_identity_witness :
    0 < 2 ∧
    ((rowAt pScenario 2 1).netFlow =
       (rowAt pScenario 2 1).inflows - (rowAt pScenario 2 1).deployment -
         (rowAt pScenario 2 1).opex ∧
     (rowAt pScenario 2 1).cashPosition =
       (rowAt pScenario 2 0).cashPosition + (rowAt pScenario 2 1).netFlow) :=
  ⟨by norm_num, c2_net_flow_identity pScenario 2 0 (by norm_num)⟩

/-- C8: at deployment 10000, inflows 12000, opex 2500 per week, starting cash
500000 and minimum threshold 100000, the code computes a net flow of −500 per
week, a runway of (500000 − 100000)/500 = 800 weeks, and a displayed ending
cash after 26 weeks of 500000 + 26·(−500) = 487000. -/
theorem c8_scenario_metrics :
    netFlowPerPeriod pScenario = -500 ∧
    runwayPeriods pScenario = some 800 ∧
    endingCash pScenario 26 = 487000 ∧
    displayedEndingCash pScenario 26 = 487000 := by
  norm_num [netFlowPerPeriod, runwayPeriods, usableCash, endingCash,
    displayedEndingCash, pScenario]

/-- C10: the headline ending-cash metric is `starting_cash +
net_flow_per_period · horizon`, computed without the throttle; whenever the
throttle never binds during the run it coincides with the final recorded cash
position of the projection table, and there is a run (cash starting at the
floor, positive deployment) where the throttle binds and the two differ. -/
theorem c10_ending_cash_refinement :
    (∀ (p : ForecastParams) (n : Nat), throttleFree p n →
      (rowAt p n n).cashPosition = endingCash p n) ∧
    ¬ throttleFree pBind 1 ∧
    (rowAt pBind 1 1).cashPosition ≠ endingCash pBind 1 := by
  refine ⟨fun p n h => ?_, fun h => ?_, ?_⟩
  · rw [rowAt_cashPosition p le_rfl, cashAt_of_throttleFree p n h, endingCash,
      mul_comm]
  · have := h 0 (by norm_num)
    norm_num [cashAt, pBind] at this
  · norm_num [rowAt, forecastData, forecastRowsAux, forecastStep, startRow,
      pBind, endingCash, netFlowPerPeriod]

/-- Witness for C10 (the universally quantified conjunct) at the worked
scenario, where the throttle never binds over a 2-period horizon. -/
theorem c10_ending_cash_refinement_witness :
    throttleFree pScenario 2 ∧
    (rowAt pScenario 2 2).cashPosition = endingCash pScenario 2 := by
  have hfree : throttleFree pScenario 2 := by
    intro i hi
    interval_cases i <;> norm_num [cashAt, forecastStep, pScenario]
  exact ⟨hfree, c10_ending_cash_refinement.1 pScenario 2 hfree⟩

/-! ## Historical rate estimation

From `create_cash_flow_forecast`, lines 24–81.  A QBO ledger line carries a
customer name, a transaction type, a (signed) amount, and a nullable
transaction date (modelled as a day number). -/

structure QboTxn where
  customerName : String
  transactionType : String
  totalAmount : ℚ
  txnDate : Option ℤ
deriving Repr, DecidableEq

/-- The inflow filter (lines 30–34): `transaction_type` in
`["Payment", "Receipt"]`, customer not a house account (`CSL`, `VEEM`), and
a non-null transaction date. -/
def isCustomerPayment (t : QboTxn) : Bool :=
  (t.transactionType == "Payment" || t.transactionType == "Receipt") &&
  !(t.customerName == "CSL" || t.customerName == "VEEM") &&
  t.txnDate.isSome

/-- `customer_payments` — the filtered inflow ledger. -/
def customerPayments (qbo : List QboTxn) : List QboTxn :=
  qbo.filter isCustomerPayment

/-- `total_inflows` (line 43): sum of absolute amounts of the filtered
transactions. -/
def totalInflows (qbo : List QboTxn) : ℚ :=
  ((customerPayments qbo).map (fun t => |t.totalAmount|)).sum

/-- The transaction dates of the filtered inflow ledger. -/
def paymentDates (qbo : List QboTxn) : List ℤ :=
  (customerPayments qbo).filterMap (fun t => t.txnDate)

/-- `(max_date - min_date).days + 1` (lines 38–40 and 66–68) on a list of
day numbers; 0 on an empty list (the code never reaches the formula then). -/
def spanDays (l : List ℤ) : ℤ :=
  match l with
  | [] => 0
  | d :: ds => (ds.foldl max d - ds.foldl min d) + 1

def inflowSpanDays (qbo : List QboTxn) : ℤ :=
  spanDays (paymentDates qbo)

/-- `weekly_inflow_rate` (lines 20, 36, 42–44): 0 unless there is at least one
filtered payment and a positive day span, otherwise
`total_inflows / (total_days / 7)`. -/
def weeklyInflowRate (qbo : List QboTxn) : ℚ :=
  if customerPayments qbo = [] then 0
  else if 0 < inflowSpanDays qbo then
    totalInflows qbo / ((inflowSpanDays qbo : ℚ) / 7)
  else 0

/-- `monthly_inflow_rate` (line 45): `total_inflows / (total_days / 30.44)`. -/
def monthlyInflowRate (qbo : List QboTxn) : ℚ :=
  if customerPayments qbo = [] then 0
  else if 0 < inflowSpanDays qbo then
    totalInflows qbo / ((inflowSpanDays qbo : ℚ) / 30.44)
  else 0

/-- One closed-won deal record as the forecaster consumes it (lines 56–70):
a nullable creation date and a participation amount. -/
structure DealRec where
  dateCreated : Option ℤ
  amount : ℚ
deriving Repr, DecidableEq

/-- Line 62: rows with unparseable dates are dropped. -/
def validDeals (deals : List DealRec) : List DealRec :=
  deals.filter (fun d => d.dateCreated.isSome)

def dealDates (deals : List DealRec) : List ℤ :=
  (validDeals deals).filterMap (fun d => d.dateCreated)

def dealSpanDays (deals : List DealRec) : ℤ :=
  spanDays (dealDates deals)

/-- `total_deployed` (line 70): plain sum of amounts (no absolute value). -/
def totalDeployed (deals : List DealRec) : ℚ :=
  ((validDeals deals).map (fun d => d.amount)).sum

/-- `weekly_deployment_rate` (line 74), guarded by `deal_total_days > 0` and
computed only when valid deals exist (line 64). -/
def weeklyDeploymentRate (deals : List DealRec) : ℚ :=
  if validDeals deals = [] then 0
  else if 0 < dealSpanDays deals then
    totalDeployed deals / ((dealSpanDays deals : ℚ) / 7)
  else 0

/-- `monthly_deployment_rate` (line 75). -/
def monthlyDeploymentRate (deals : List DealRec) : ℚ :=
  if validDeals deals = [] then 0
  else if 0 < dealSpanDays deals then
    totalDeployed deals / ((dealSpanDays deals : ℚ) / 30.44)
  else 0

lemma foldl_max_const (d0 : ℤ) :
    ∀ l : List ℤ, (∀ d ∈ l, d = d0) → l.foldl max d0 = d0
  | [], _ => rfl
  | d :: ds, h => by
    have hd : d = d0 := h d (List.mem_cons_self d ds)
    have hds : ∀ x ∈ ds, x = d0 := fun x hx => h x (List.mem_cons_of_mem d hx)
    simp only [List.foldl_cons, hd, max_self]
    exact foldl_max_const d0 ds hds

lemma foldl_min_const (d0 : ℤ) :
    ∀ l : List ℤ, (∀ d ∈ l, d = d0) → l.foldl min d0 = d0
  | [], _ => rfl
  | d :: ds, h => by
    have hd : d = d0 := h d (List.mem_cons_self d ds)
    have hds : ∀ x ∈ ds, x = d0 := fun x hx => h x (List.mem_cons_of_mem d hx)
    simp only [List.foldl_cons, hd, min_self]
    exact foldl_min_const d0 ds hds

/-- On a non-empty list of identical dates, the span formula yields 1 day. -/
lemma spanDays_const (d0 : ℤ) (l : List ℤ) (hne : l ≠ [])
    (hsame : ∀ d ∈ l, d = d0) : spanDays l = 1 := by
  cases l with
  | nil => exact absurd rfl hne
  | cons d ds =>
    have hd : d = d0 := hsame d (List.mem_cons_self d ds)
    have hds : ∀ x ∈ ds, x = d0 := fun x hx => hsame x (List.mem_cons_of_mem d hx)
    simp only [spanDays, hd, foldl_max_const d0 ds hds, foldl_min_const d0 ds hds,
      sub_self, zero_add]

/-- A single payment of 700 on one day: the same-date edge case. -/
def t5 : QboTxn :=
  { customerName := "Acme", transactionType := "Payment"
    totalAmount := 700, txnDate := some 10 }

/-- C5 (counterexample): with a single historical payment of 700 (all events
on one date), the span formula gives `(max - min).days + 1 = 1`, so the
derived weekly rate is `700 / (1/7) = 4900` and the monthly rate is
`700 / (1/30.44) = 21308` — not the total amount 700 as claimed. -/
theorem c5_same_date_counterexample :
    paymentDates [t5] ≠ [] ∧ (∀ d ∈ paymentDates [t5], d = 10) ∧
    totalInflows [t5] = 700 ∧
    weeklyInflowRate [t5] = 4900 ∧ monthlyInflowRate [t5] = 21308 ∧
    weeklyInflowRate [t5] ≠ totalInflows [t5] ∧
    monthlyInflowRate [t5] ≠ totalInflows [t5] := by
  norm_num +decide [weeklyInflowRate, monthlyInflowRate, totalInflows, inflowSpanDays,
    spanDays, paymentDates, customerPayments, isCustomerPayment, t5, List.filter_cons,
    List.filterMap_cons]

/-- C5 (amended): for a non-empty set of historical events all on the same
date, the span evaluates to 1 day (never 0, so no division by zero), and the
derived rates are `total · 7` per week and `total · 30.44` per month — the
total over a one-day span extrapolated to the unit, not the bare total. -/
theorem c5_same_date_rates (qbo : List QboTxn) (deals : List DealRec) (d0 e0 : ℤ)
    (hq : paymentDates qbo ≠ []) (hqsame : ∀ d ∈ paymentDates qbo, d = d0)
    (hd : dealDates deals ≠ []) (hdsame : ∀ d ∈ dealDates deals, d = e0) :
    inflowSpanDays qbo = 1 ∧
    weeklyInflowRate qbo = 7 * totalInflows qbo ∧
    monthlyInflowRate qbo = 30.44 * totalInflows qbo ∧
    dealSpanDays deals = 1 ∧
    weeklyDeploymentRate deals = 7 * totalDeployed deals ∧
    monthlyDeploymentRate deals = 30.44 * totalDeployed deals := by
  have hqspan : inflowSpanDays qbo = 1 := spanDays_const d0 _ hq hqsame
  have hdspan : dealSpanDays deals = 1 := spanDays_const e0 _ hd hdsame
  have hcp : customerPayments qbo ≠ [] := by
    intro h
    exact hq (by simp [paymentDates, h])
  have hvd : validDeals deals ≠ [] := by
    intro h
    exact hd (by simp [dealDates, h])
  refine ⟨hqspan, ?_, ?_, hdspan, ?_, ?_⟩
  · rw [weeklyInflowRate, if_neg hcp, if_pos (by rw [hqspan]; norm_num), hqspan]
    push_cast
    rw [div_div_eq_mul_div, div_one, mul_comm]
  · rw [monthlyInflowRate, if_neg hcp, if_pos (by rw [hqspan]; norm_num), hqspan]
    push_cast
    rw [div_div_eq_mul_div, div_one, mul_comm]
  · rw [weeklyDeploymentRate, if_neg hvd, if_pos (by rw [hdspan]; norm_num), hdspan]
    push_cast
    rw [div_div_eq_mul_div, div_one, mul_comm]
  · rw [monthlyDeploymentRate, if_neg hvd, if_pos (by rw [hdspan]; norm_num), hdspan]
    push_cast
    rw [div_div_eq_mul_div, div_one, mul_comm]

/-- A single deal of 5000 funded on one day. -/
def deal5 : DealRec := { dateCreated := some 20, amount := 5000 }

/-- Witness for C5 (amended) at one payment and one deal, each on a single
date. -/
theorem c5_same_date_rates_witness :
    (paymentDates [t5] ≠ [] ∧ (∀ d ∈ paymentDates [t5], d = 10) ∧
     dealDates [deal5] ≠ [] ∧ (∀ d ∈ dealDates [deal5], d = 20)) ∧
    (inflowSpanDays [t5] = 1 ∧
     weeklyInflowRate [t5] = 7 * totalInflows [t5] ∧
     monthlyInflowRate [t5] = 30.44 * totalInflows [t5] ∧
     dealSpanDays [deal5] = 1 ∧
     weeklyDeploymentRate [deal5] = 7 * totalDeployed [deal5] ∧
     monthlyDeploymentRate [deal5] = 30.44 * totalDeployed [deal5]) :=
  ⟨⟨by norm_num +decide [paymentDates, customerPayments, isCustomerPayment, t5,
      List.filter_cons, List.filterMap_cons],
    by norm_num +decide [paymentDates, customerPayments, isCustomerPayment, t5,
      List.filter_cons, List.filterMap_cons],
    by norm_num +decide [dealDates, validDeals, deal5, List.filter_cons, List.filterMap_cons],
    by norm_num +decide [dealDates, validDeals, deal5, List.filter_cons, List.filterMap_cons]⟩,
   c5_same_date_rates [t5] [deal5] 10 20
     (by norm_num +decide [paymentDates, customerPayments, isCustomerPayment, t5,
       List.filter_cons, List.filterMap_cons])
     (by norm_num +decide [paymentDates, customerPayments, isCustomerPayment, t5,
       List.filter_cons, List.filterMap_cons])
     (by norm_num +decide [dealDates, validDeals, deal5, List.filter_cons, List.filterMap_cons])
     (by norm_num +decide [dealDates, validDeals, deal5, List.filter_cons,
       List.filterMap_cons])⟩

/-! ## C6: which transactions feed the historical inflow rate -/

/-- The inflow condition as the claim states it: type in
{Payment, Deposit, Receipt} and not a house account. -/
def claimInflowCond (t : QboTxn) : Prop :=
  (t.transactionType = "Payment" ∨ t.transactionType = "Deposit" ∨
    t.transactionType = "Receipt") ∧
  t.customerName ≠ "CSL" ∧ t.customerName ≠ "VEEM"

instance (t : QboTxn) : Decidable (claimInflowCond t) := by
  unfold claimInflowCond
  infer_instance

/-- The inflow condition the forecaster actually applies: type in
{Payment, Receipt} (no Deposit), not a house account, and a non-null date. -/
def actualInflowCond (t : QboTxn) : Prop :=
  (t.transactionType = "Payment" ∨ t.transactionType = "Receipt") ∧
  t.customerName ≠ "CSL" ∧ t.customerName ≠ "VEEM" ∧ t.txnDate ≠ none

instance (t : QboTxn) : Decidable (actualInflowCond t) := by
  unfold actualInflowCond
  infer_instance

lemma isCustomerPayment_iff (t : QboTxn) :
    isCustomerPayment t = true ↔ actualInflowCond t := by
  unfold isCustomerPayment actualInflowCond
  simp only [Bool.and_eq_true, Bool.or_eq_true, beq_iff_eq, Bool.not_eq_true',
    Bool.or_eq_false_iff, beq_eq_false_iff_ne, Option.isSome_iff_ne_none]
  tauto

/-- A Deposit transaction from a genuine customer with a valid date. -/
def tDeposit : QboTxn :=
  { customerName := "Acme", transactionType := "Deposit"
    totalAmount := 100, txnDate := some 0 }

/-- C6 (counterexample): a Deposit from a non-house customer with a valid
date satisfies the claimed inflow condition, yet the forecaster filters it
out: it contributes 0 to the inflow total instead of its absolute amount. -/
theorem c6_deposit_counterexample :
    claimInflowCond tDeposit ∧
    customerPayments [tDeposit] = [] ∧
    totalInflows [tDeposit] = 0 ∧
    totalInflows [tDeposit] ≠ |tDeposit.totalAmount| := by
  refine ⟨?_, ?_, ?_, ?_⟩ <;>
    norm_num +decide [claimInflowCond, totalInflows, customerPayments, isCustomerPayment,
      tDeposit, List.filter_cons]

/-- C6 (amended): a transaction contributes its absolute amount to the
historical inflow total exactly when its type is Payment or Receipt (Deposit
is not in the forecaster's inflow set), it is not from a house account, and
its date is non-null; all other transactions contribute nothing. -/
theorem c6_inflow_contribution (t : QboTxn) (qbo : List QboTxn) :
    totalInflows (t :: qbo) =
      (if actualInflowCond t then |t.totalAmount| else 0) + totalInflows qbo := by
  unfold totalInflows customerPayments
  rw [List.filter_cons]
  by_cases h : actualInflowCond t
  · rw [if_pos ((isCustomerPayment_iff t).mpr h), if_pos h, List.map_cons, List.sum_cons]
  · rw [if_neg (by simpa [isCustomerPayment_iff] using h), if_neg h, zero_add]

/-! ## Risk scorer

From `qbo_dashboard.py`, lines 461–508: risk analysis restricts to Invoice
and Payment transactions from non-house customers, takes absolute amounts,
pivots per-customer Invoice and Payment totals, and scores
`0.4·(1 − payment_ratio) + 0.3·(outstanding / max invoice) + penalty`. -/

/-- Line 461–462: transaction enters risk analysis when its type is Invoice
or Payment and the customer is not a house account. -/
def isRiskTxn (t : QboTxn) : Bool :=
  (t.transactionType == "Invoice" || t.transactionType == "Payment") &&
  !(t.customerName == "CSL" || t.customerName == "VEEM")

def riskTxns (txns : List QboTxn) : List QboTxn :=
  txns.filter isRiskTxn

/-- One cell of the `pivot_table` (lines 480–486): the sum of absolute
amounts of a customer's transactions of one type (`fill_value=0` gives 0
when none exist). -/
def typeTotal (txns : List QboTxn) (c ty : String) : ℚ :=
  (((riskTxns txns).filter
      (fun t => t.customerName == c && t.transactionType == ty)).map
    (fun t => |t.totalAmount|)).sum

def invoiceTotal (txns : List QboTxn) (c : String) : ℚ := typeTotal txns c "Invoice"

def paymentTotal (txns : List QboTxn) (c : String) : ℚ := typeTotal txns c "Payment"

/-- The customers indexing the pivot table. -/
def riskCustomers (txns : List QboTxn) : List String :=
  ((riskTxns txns).map (fun t => t.customerName)).dedup

/-- `payment_behavior["Invoice"].max()` (line 499): the largest per-customer
invoice total.  The fold base 0 agrees with the pandas maximum on every
non-empty population, because invoice totals are sums of absolute values. -/
def maxInvoice (txns : List QboTxn) : ℚ :=
  ((riskCustomers txns).map (invoiceTotal txns)).foldr max 0

/-- `payment_ratio` (lines 489–493): `np.where(Invoice > 0, Payment/Invoice, 0)`. -/
def paymentRatio (txns : List QboTxn) (c : String) : ℚ :=
  if 0 < invoiceTotal txns c then paymentTotal txns c / invoiceTotal txns c else 0

/-- `outstanding_balance` (line 494). -/
def outstandingBalance (txns : List QboTxn) (c : String) : ℚ :=
  invoiceTotal txns c - paymentTotal txns c

/-- `risk_score` (lines 497–501).  The relative-balance division is unguarded
in the source; over `ℚ` a zero maximum makes that term 0, which can only occur
when every customer's invoice total is zero. -/
def riskScore (txns : List QboTxn) (c : String) : ℚ :=
  (1 - paymentRatio txns c) * 0.4 +
  (outstandingBalance txns c / maxInvoice txns) * 0.3 +
  (if paymentRatio txns c < 0.5 then 0.3 else 0)

/-- `risk_category` (lines 504–508): `pd.cut` with right-closed bins
`(0, 0.2], (0.2, 0.5], (0.5, 1.0]`; scores outside every bin — in particular
a score of exactly 0 — receive no label (`NaN`, modelled as `none`). -/
def riskCategory (s : ℚ) : Option String :=
  if 0 < s ∧ s ≤ 0.2 then some "Low Risk"
  else if 0.2 < s ∧ s ≤ 0.5 then some "Medium Risk"
  else if 0.5 < s ∧ s ≤ 1 then some "High Risk"
  else none

lemma typeTotal_nonneg (txns : List QboTxn) (c ty : String) :
    0 ≤ typeTotal txns c ty := by
  unfold typeTotal
  apply List.sum_nonneg
  intro x hx
  simp only [List.mem_map] at hx
  obtain ⟨t, _, rfl⟩ := hx
  exact abs_nonneg _

lemma paymentRatio_nonneg (txns : List QboTxn) (c : String) :
    0 ≤ paymentRatio txns c := by
  unfold paymentRatio
  split_ifs with h
  · exact div_nonneg (typeTotal_nonneg txns c "Payment") (le_of_lt h)
  · exact le_refl 0

lemma le_foldr_max (l : List ℚ) (b : ℚ) : ∀ x ∈ l, x ≤ l.foldr max b := by
  induction l with
  | nil => intro x hx; exact absurd hx (List.not_mem_nil x)
  | cons y ys ih =>
    intro x hx
    rcases List.mem_cons.mp hx with rfl | hx2
    · exact le_max_left _ _
    · exact (ih x hx2).trans (le_max_right _ _)

lemma foldr_max_base (l : List ℚ) (b : ℚ) : b ≤ l.foldr max b := by
  induction l with
  | nil => exact le_refl b
  | cons y ys ih => exact ih.trans (le_max_right _ _)

lemma invoiceTotal_eq_zero_of_not_mem (txns : List QboTxn) (c : String)
    (h : c ∉ riskCustomers txns) : invoiceTotal txns c = 0 := by
  unfold invoiceTotal typeTotal
  have hnil : (riskTxns txns).filter
      (fun t => t.customerName == c && t.transactionType == "Invoice") = [] := by
    rw [List.filter_eq_nil_iff]
    intro t ht hmem
    apply h
    unfold riskCustomers
    rw [List.mem_dedup]
    simp only [Bool.and_eq_true, beq_iff_eq] at hmem
    exact List.mem_map.mpr ⟨t, ht, hmem.1⟩
  rw [hnil]
  rfl

lemma invoiceTotal_le_maxInvoice (txns : List QboTxn) (c : String) :
    invoiceTotal txns c ≤ maxInvoice txns := by
  by_cases h : c ∈ riskCustomers txns
  · exact le_foldr_max _ 0 _ (List.mem_map.mpr ⟨c, h, rfl⟩)
  · rw [invoiceTotal_eq_zero_of_not_mem txns c h]
    exact foldr_max_base _ 0

lemma maxInvoice_nonneg (txns : List QboTxn) : 0 ≤ maxInvoice txns :=
  foldr_max_base _ 0

/-- The relative-balance term never exceeds 1: a customer's outstanding
balance is at most their invoice total, which is at most the population
maximum. -/
lemma relative_balance_le_one (txns : List QboTxn) (c : String) :
    outstandingBalance txns c / maxInvoice txns ≤ 1 := by
  rcases eq_or_lt_of_le (maxInvoice_nonneg txns) with h | h
  · rw [← h, div_zero]
    norm_num
  · rw [div_le_one h]
    calc outstandingBalance txns c ≤ invoiceTotal txns c := by
          unfold outstandingBalance
          have := typeTotal_nonneg txns c "Payment"
          unfold paymentTotal at *
          linarith
      _ ≤ maxInvoice txns := invoiceTotal_le_maxInvoice txns c

/-- The score is bounded by 0.4 + 0.3 + 0.3 = 1: the payment-ratio term is at
most 0.4 (the ratio is non-negative), the relative-balance term at most 0.3,
the penalty at most 0.3. -/
lemma riskScore_le_one (txns : List QboTxn) (c : String) : riskScore txns c ≤ 1 := by
  unfold riskScore
  have h1 : 0 ≤ paymentRatio txns c := paymentRatio_nonneg txns c
  have h2 : outstandingBalance txns c / maxInvoice txns ≤ 1 :=
    relative_balance_le_one txns c
  split_ifs <;> nlinarith

lemma riskCategory_iffs (s : ℚ) (h0 : 0 < s) (h1 : s ≤ 1) :
    (riskCategory s = some "Low Risk" ↔ s ≤ 0.2) ∧
    (riskCategory s = some "Medium Risk" ↔ 0.2 < s ∧ s ≤ 0.5) ∧
    (riskCategory s = some "High Risk" ↔ 0.5 < s) ∧
    ∃ cat, riskCategory s = some cat := by
  unfold riskCategory
  split_ifs with hA hB hC
  · refine ⟨?_, ?_, ?_, ⟨"Low Risk", rfl⟩⟩ <;> (simp_all +decide; try linarith)
  · refine ⟨?_, ?_, ?_, ⟨"Medium Risk", rfl⟩⟩ <;> (simp_all +decide; try linarith)
  · refine ⟨?_, ?_, ?_, ⟨"High Risk", rfl⟩⟩ <;> (simp_all +decide; try linarith)
  · exfalso
    push_neg at hA hB hC
    rcases le_or_lt s 0.2 with h | h
    · linarith [hA h0]
    · rcases le_or_lt s 0.5 with h2 | h2
      · linarith [hB h]
      · linarith [hC h2]

/-- A customer who has paid their invoices in full: score exactly 0. -/
def txns3 : List QboTxn :=
  [{ customerName := "A", transactionType := "Invoice", totalAmount := 100, txnDate := none },
   { customerName := "A", transactionType := "Payment", totalAmount := 100, txnDate := none }]

/-- C3 (counterexample): a fully paid customer (invoices 100, payments 100)
scores exactly 0; the claim says a score of 0 falls in the Low Risk bucket
(score ≤ 0.2), but `pd.cut` with left-open bins assigns it no category at
all. -/
theorem c3_zero_score_counterexample :
    riskScore txns3 "A" = 0 ∧
    riskScore txns3 "A" ≤ 0.2 ∧
    riskCategory (riskScore txns3 "A") = none ∧
    riskCategory (riskScore txns3 "A") ≠ some "Low Risk" := by
  norm_num +decide [riskScore, riskCategory, paymentRatio, outstandingBalance, maxInvoice,
    riskCustomers, invoiceTotal, paymentTotal, typeTotal, riskTxns, isRiskTxn, txns3,
    List.filter_cons, List.dedup_cons_of_not_mem, List.dedup_cons_of_mem]

/-- C3 (amended): when some customer has a positive invoice total and the
computed score is strictly positive, the score receives exactly one category,
per the right-closed thresholds: Low on (0, 0.2], Medium on (0.2, 0.5], High
on (0.5, 1] (scores never exceed 1); a score of exactly 0 — or below —
receives no category. -/
theorem c3_risk_bucket_partition (txns : List QboTxn) (c : String)
    (_hmax : 0 < maxInvoice txns) (h0 : 0 < riskScore txns c) :
    (riskCategory (riskScore txns c) = some "Low Risk" ↔ riskScore txns c ≤ 0.2) ∧
    (riskCategory (riskScore txns c) = some "Medium Risk" ↔
      0.2 < riskScore txns c ∧ riskScore txns c ≤ 0.5) ∧
    (riskCategory (riskScore txns c) = some "High Risk" ↔ 0.5 < riskScore txns c) ∧
    ∃ cat, riskCategory (riskScore txns c) = some cat :=
  riskCategory_iffs _ h0 (riskScore_le_one txns c)

/-- A one-invoice, no-payment customer alongside a paying customer: the
score reaches the extreme value 1. -/
def txns4 : List QboTxn :=
  [{ customerName := "A", transactionType := "Invoice", totalAmount := 100, txnDate := none },
   { customerName := "B", transactionType := "Payment", totalAmount := 50, txnDate := none }]

/-- Witness for C3 (amended) at a population whose customer A scores
exactly 1 (High Risk). -/
theorem c3_risk_bucket_partition_witness :
    (0 < maxInvoice txns4 ∧ 0 < riskScore txns4 "A") ∧
    ((riskCategory (riskScore txns4 "A") = some "Low Risk" ↔ riskScore txns4 "A" ≤ 0.2) ∧
     (riskCategory (riskScore txns4 "A") = some "Medium Risk" ↔
       0.2 < riskScore txns4 "A" ∧ riskScore txns4 "A" ≤ 0.5) ∧
     (riskCategory (riskScore txns4 "A") = some "High Risk" ↔ 0.5 < riskScore txns4 "A") ∧
     ∃ cat, riskCategory (riskScore txns4 "A") = some cat) :=
  ⟨⟨by norm_num +decide [maxInvoice, riskCustomers, invoiceTotal, paymentTotal, typeTotal,
      riskTxns, isRiskTxn, txns4, List.filter_cons, List.dedup_cons_of_not_mem,
      List.dedup_cons_of_mem],
    by norm_num +decide [riskScore, paymentRatio, outstandingBalance, maxInvoice,
      riskCustomers, invoiceTotal, paymentTotal, typeTotal, riskTxns, isRiskTxn, txns4,
      List.filter_cons, List.dedup_cons_of_not_mem, List.dedup_cons_of_mem]⟩,
   c3_risk_bucket_partition txns4 "A"
     (by norm_num +decide [maxInvoice, riskCustomers, invoiceTotal, paymentTotal, typeTotal,
       riskTxns, isRiskTxn, txns4, List.filter_cons, List.dedup_cons_of_not_mem,
       List.dedup_cons_of_mem])
     (by norm_num +decide [riskScore, paymentRatio, outstandingBalance, maxInvoice,
       riskCustomers, invoiceTotal, paymentTotal, typeTotal, riskTxns, isRiskTxn, txns4,
       List.filter_cons, List.dedup_cons_of_not_mem, List.dedup_cons_of_mem])⟩

/-- C4 (counterexample): no input whatsoever makes the computed risk score
strictly exceed 1.0 — the claimed existence is false. -/
theorem c4_no_score_above_one : ¬ ∃ (txns : List QboTxn) (c : String),
    1 < riskScore txns c := by
  rintro ⟨txns, c, h⟩
  exact absurd h (not_lt.mpr (riskScore_le_one txns c))

/-- C4 (amended): the risk score is bounded above by exactly 1.0 for every
input, and the bound is attained — a customer with the maximal invoice total
and no payments (payment_ratio 0, relative_balance 1, low-payment penalty on)
scores exactly 1.0. -/
theorem c4_score_bound_attained :
    (∀ (txns : List QboTxn) (c : String), riskScore txns c ≤ 1) ∧
    riskScore txns4 "A" = 1 :=
  ⟨riskScore_le_one,
   by norm_num +decide [riskScore, paymentRatio, outstandingBalance, maxInvoice,
     riskCustomers, invoiceTotal, paymentTotal, typeTotal, riskTxns, isRiskTxn, txns4,
     List.filter_cons, List.dedup_cons_of_not_mem, List.dedup_cons_of_mem]⟩

/-- C7: whenever a customer's invoice total is 0, the guarded payment ratio
evaluates to exactly 0 (the `np.where` guard takes the zero branch; no
exception, no NaN in the output). -/
theorem c7_payment_ratio_zero_denominator (txns : List QboTxn) (c : String)
    (h : invoiceTotal txns c = 0) : paymentRatio txns c = 0 := by
  unfold paymentRatio
  rw [if_neg]
  rw [h]
  exact lt_irrefl 0

/-- A customer with payments but no invoices. -/
def txns7 : List QboTxn :=
  [{ customerName := "A", transactionType := "Payment", totalAmount := 50, txnDate := none }]

/-- Witness for C7 at a customer with payments and no invoices. -/
theorem c7_payment_ratio_zero_denominator_witness :
    invoiceTotal txns7 "A" = 0 ∧ paymentRatio txns7 "A" = 0 :=
  ⟨by norm_num +decide [invoiceTotal, typeTotal, riskTxns, isRiskTxn, txns7, List.filter_cons],
   c7_payment_ratio_zero_denominator txns7 "A"
     (by norm_num +decide [invoiceTotal, typeTotal, riskTxns, isRiskTxn, txns7,
       List.filter_cons])⟩

/-! ## The loan-id join of HubSpot deals against MCA deals

From `combine_hubspot_mca.py`, `combine_deals` (lines 18–44): deals rows with
a null `loan_id` are dropped (`dropna`), both keys are stringified
(`astype(str)`, which renders a pandas NaN as the string `nan`), then an
inner merge on `loan_id = deal_number`.  No trimming happens. -/

structure HubspotDeal where
  loanId : Option String
deriving Repr, DecidableEq

structure McaDeal where
  dealNumber : Option String
deriving Repr, DecidableEq

/-- `astype(str)` on a nullable string column: a missing value becomes the
literal string `nan`. -/
def pyStr : Option String → String
  | none => "nan"
  | some s => s

/-- `combine_deals`: drop deals with null `loan_id`, stringify both keys,
inner-join on key equality (each surviving deal paired with every MCA row
whose stringified `deal_number` equals its stringified `loan_id`). -/
def combineDeals (deals : List HubspotDeal) (mca : List McaDeal) :
    List (HubspotDeal × McaDeal) :=
  (deals.filter (fun d => d.loanId.isSome)).flatMap
    (fun d => (mca.filter (fun m => pyStr d.loanId == pyStr m.dealNumber)).map
      (fun m => (d, m)))

/-- A deal and an MCA row both carrying the empty string as their key. -/
def dEmpty : HubspotDeal := { loanId := some "" }

def mEmpty : McaDeal := { dealNumber := some "" }

/-- C9 (counterexample): an empty-string `loan_id` is not treated as missing —
`dropna` only removes nulls — so a deal with `loan_id = ""` joins an MCA row
with `deal_number = ""`, and the joined output contains a row whose loan
identifier is missing (empty) on both sides. -/
theorem c9_empty_string_counterexample :
    combineDeals [dEmpty] [mEmpty] = [(dEmpty, mEmpty)] ∧
    dEmpty.loanId = some "" ∧ mEmpty.dealNumber = some "" := by
  refine ⟨?_, rfl, rfl⟩
  rfl

/-- C9 (amended): only null deals-side keys are treated as missing: every row
of the joined output has a non-null deals-side `loan_id`, and its stringified
key equals the MCA side's stringified `deal_number`.  Empty strings are not
excluded and match each other; a null `deal_number` is stringified to `nan`
and can match only a literal `nan` loan id. -/
theorem c9_join_null_handling (deals : List HubspotDeal) (mca : List McaDeal)
    (p : HubspotDeal × McaDeal) (hp : p ∈ combineDeals deals mca) :
    p.1.loanId ≠ none ∧ pyStr p.1.loanId = pyStr p.2.dealNumber := by
  unfold combineDeals at hp
  simp only [List.mem_flatMap, List.mem_map, List.mem_filter] at hp
  obtain ⟨d, ⟨_, hsome⟩, m, ⟨_, hkey⟩, rfl⟩ := hp
  refine ⟨?_, by simpa using hkey⟩
  simp only [Option.isSome_iff_ne_none] at hsome
  exact hsome

/-- Witness for C9 (amended) at a one-row join on the key `L1`. -/
theorem c9_join_null_handling_witness :
    (({ loanId := some "L1" } : HubspotDeal), ({ dealNumber := some "L1" } : McaDeal)) ∈
      combineDeals [{ loanId := some "L1" }] [{ dealNumber := some "L1" }] ∧
    (({ loanId := some "L1" } : HubspotDeal).loanId ≠ none ∧
      pyStr ({ loanId := some "L1" } : HubspotDeal).loanId =
        pyStr ({ dealNumber := some "L1" } : McaDeal).dealNumber) :=
  ⟨by decide,
   c9_join_null_handling [{ loanId := some "L1" }] [{ dealNumber := some "L1" }]
     ({ loanId := some "L1" }, { dealNumber := some "L1" }) (by decide)⟩

end Spec2Proof
